import Mathlib

/-
Verification of the text-selection link popup plugin (src/main.ts).

The embedding below mirrors the source file:
- Rect models DOMRect snapshots (top, left, width, height; bottom and
  right derived), with coordinates in the rationals since DOM pixel
  coordinates are real-valued and the calculator divides widths by 2.
- Viewport models window.innerWidth and window.innerHeight.
- PositionCalculator is translated function by function.
- The bracket-rewrite transform of SelectionHandler.convertToLink is
  modelled on lists of characters; each regex replace pass of the source
  is a dedicated recursive function.
- PopupManager and the plugin event handlers are modelled as explicit
  state transitions.
-/

-- ========== Geometry types ==========

structure Rect where
  top : ℚ
  left : ℚ
  width : ℚ
  height : ℚ
deriving DecidableEq

def Rect.bottom (r : Rect) : ℚ := r.top + r.height

def Rect.right (r : Rect) : ℚ := r.left + r.width

structure Viewport where
  width : ℚ
  height : ℚ
deriving DecidableEq

inductive PopupPlacement where
  | top
  | bottom
deriving DecidableEq

structure PopupPosition where
  top : ℚ
  left : ℚ
  placement : PopupPlacement
deriving DecidableEq

-- ========== PopupConfig constants ==========

namespace PopupConfig

def TAIL_SIZE : ℚ := 6

def POPUP_MARGIN : ℚ := 10

def TOTAL_OFFSET : ℚ := TAIL_SIZE + POPUP_MARGIN

def SCREEN_MARGIN : ℚ := 10

def POPUP_CLASS : String := "text-selection-linker-popup"

def BUTTON_CLASS : String := "text-selection-linker-button"

def SHOW_CLASS : String := "show"

def PLACEMENT_TOP_CLASS : String := "popup-top"

def PLACEMENT_BOTTOM_CLASS : String := "popup-bottom"

end PopupConfig

-- ========== PositionCalculator ==========

namespace PositionCalculator

/-- clampToHorizontalBounds of the source: clamp a left coordinate into
the band between SCREEN_MARGIN and viewportWidth minus popupWidth minus
SCREEN_MARGIN (Math.max of the minimum with Math.min of left and the
maximum). -/
def clampToHorizontalBounds (left popupWidth viewportWidth : ℚ) : ℚ :=
  let minLeft := PopupConfig.SCREEN_MARGIN
  let maxLeft := viewportWidth - popupWidth - PopupConfig.SCREEN_MARGIN
  max minLeft (min left maxLeft)

/-- calculateHorizontalPosition of the source: center the popup over the
selection, then clamp into the horizontal band. -/
def calculateHorizontalPosition (selectionRect popupRect : Rect)
    (viewportWidth : ℚ) : ℚ :=
  let centerAligned :=
    selectionRect.left + selectionRect.width / 2 - popupRect.width / 2
  clampToHorizontalBounds centerAligned popupRect.width viewportWidth

/-- calculateVerticalPosition of the source: prefer above, then below,
else the side with more space (ties going to above). -/
def calculateVerticalPosition (selectionRect popupRect : Rect)
    (viewportHeight : ℚ) : ℚ × PopupPlacement :=
  let selectionTop := selectionRect.top
  let selectionBottom := selectionRect.bottom
  let topPlacement :=
    selectionTop - popupRect.height - PopupConfig.TOTAL_OFFSET
  if topPlacement ≥ PopupConfig.SCREEN_MARGIN then
    (topPlacement, PopupPlacement.top)
  else
    let bottomPlacement := selectionBottom + PopupConfig.TOTAL_OFFSET
    let popupBottom := bottomPlacement + popupRect.height
    if popupBottom ≤ viewportHeight - PopupConfig.SCREEN_MARGIN then
      (bottomPlacement, PopupPlacement.bottom)
    else
      let spaceAbove := selectionTop - PopupConfig.SCREEN_MARGIN
      let spaceBelow :=
        viewportHeight - selectionBottom - PopupConfig.SCREEN_MARGIN
      if spaceAbove ≥ spaceBelow then
        (max PopupConfig.SCREEN_MARGIN topPlacement, PopupPlacement.top)
      else
        (min (viewportHeight - popupRect.height - PopupConfig.SCREEN_MARGIN)
          bottomPlacement, PopupPlacement.bottom)

/-- hasCollision of the source: axis-aligned overlap test between the
popup box of a computed position and the selection box. -/
def hasCollision (selectionRect : Rect) (position : PopupPosition)
    (popupRect : Rect) : Bool :=
  let popupTop := position.top
  let popupBottom := position.top + popupRect.height
  let popupLeft := position.left
  let popupRight := position.left + popupRect.width
  let verticalOverlap :=
    !(decide (popupBottom < selectionRect.top) ||
      decide (popupTop > selectionRect.bottom))
  let horizontalOverlap :=
    !(decide (popupRight < selectionRect.left) ||
      decide (popupLeft > selectionRect.right))
  verticalOverlap && horizontalOverlap

/-- forceSafePosition of the source: place above; if that violates the
top margin, place below; if that overflows the bottom, clamp the top
coordinate; the horizontal coordinate is recomputed as usual. -/
def forceSafePosition (selectionRect popupRect : Rect)
    (viewport : Viewport) : PopupPosition :=
  let viewportHeight := viewport.height
  let top0 :=
    selectionRect.top - popupRect.height - PopupConfig.TOTAL_OFFSET
  let vert :=
    if top0 < PopupConfig.SCREEN_MARGIN then
      let top1 := selectionRect.bottom + PopupConfig.TOTAL_OFFSET
      if top1 + popupRect.height >
          viewportHeight - PopupConfig.SCREEN_MARGIN then
        (max PopupConfig.SCREEN_MARGIN
          (viewportHeight - popupRect.height - PopupConfig.SCREEN_MARGIN),
         PopupPlacement.bottom)
      else
        (top1, PopupPlacement.bottom)
    else
      (top0, PopupPlacement.top)
  let left := calculateHorizontalPosition selectionRect popupRect viewport.width
  { top := vert.1, left := left, placement := vert.2 }

/-- calculate of the source: horizontal clamp plus vertical side choice,
with a final collision check that falls back to forceSafePosition. -/
def calculate (selectionRect popupRect : Rect)
    (viewport : Viewport) : PopupPosition :=
  let left := calculateHorizontalPosition selectionRect popupRect viewport.width
  let vert := calculateVerticalPosition selectionRect popupRect viewport.height
  let pos : PopupPosition :=
    { top := vert.1, left := left, placement := vert.2 }
  if hasCollision selectionRect pos popupRect then
    forceSafePosition selectionRect popupRect viewport
  else
    pos

end PositionCalculator


-- ========== SelectionHandler: the bracket-rewrite transform ==========

/-- One global-regex replace pass of the source deleting every
non-overlapping occurrence of a doubled character (the replace of
all double open brackets, respectively all double close brackets,
with the empty string), scanning left to right. -/
def removeDoubles (ch : Char) : List Char → List Char
  | [] => []
  | [a] => [a]
  | a :: b :: rest =>
    if a = ch ∧ b = ch then removeDoubles ch rest
    else a :: removeDoubles ch (b :: rest)

/-- One global-regex replace pass of the source deleting every
occurrence of a single character (the replace of all remaining single
brackets with the empty string). -/
def removeAll (ch : Char) (l : List Char) : List Char :=
  l.filter (fun c => decide (c ≠ ch))

/-- The text transformation inside SelectionHandler.convertToLink:
delete all double open brackets, then all double close brackets, then
all remaining single brackets of either kind, then wrap the result in
one double-bracket pair. -/
def convertToLinkText (s : List Char) : List Char :=
  let s1 := removeDoubles '[' s
  let s2 := removeDoubles ']' s1
  let s3 := removeAll '[' s2
  let s4 := removeAll ']' s3
  '[' :: '[' :: (s4 ++ [']', ']'])

/-- Characters that are not bracket characters; used to state what the
transform preserves. -/
def nonBracket (c : Char) : Bool :=
  decide (c ≠ '[') && decide (c ≠ ']')

-- ========== SelectionHandler: editor interaction ==========

/-- Model of the bound editor: the document split as the text before the
selection, the selected text, and the text after it. getSelection
returns the middle part; replaceSelection replaces the middle part with
new text and leaves the cursor after it (empty selection). -/
structure EditorState where
  before : List Char
  selection : List Char
  after : List Char
deriving DecidableEq

def EditorState.getSelection (e : EditorState) : List Char := e.selection

def EditorState.replaceSelection (e : EditorState) (text : List Char) :
    EditorState :=
  { before := e.before ++ text, selection := [], after := e.after }

def EditorState.doc (e : EditorState) : List Char :=
  e.before ++ e.selection ++ e.after

/-- SelectionHandler.convertToLink of the source: a no-op when no editor
is bound or when the selected text is empty; otherwise replaces the
selection with the transformed text. -/
def convertToLink (editor : Option EditorState) : Option EditorState :=
  match editor with
  | none => none
  | some e =>
    let selectedText := e.getSelection
    if selectedText = [] then some e
    else some (e.replaceSelection (convertToLinkText selectedText))

-- ========== PopupManager ==========

/-- Model of the popup DOM element: its class list, its inline top and
left style values, and whether it is attached to the document body. -/
structure PopupElem where
  classes : List String
  styleTop : Option ℚ
  styleLeft : Option ℚ
  attached : Bool
deriving DecidableEq

/-- The CSS class applied for a placement by position (the template
string building popup-top or popup-bottom in the source). -/
def placementClass (p : PopupPlacement) : String :=
  match p with
  | PopupPlacement.top => PopupConfig.PLACEMENT_TOP_CLASS
  | PopupPlacement.bottom => PopupConfig.PLACEMENT_BOTTOM_CLASS

namespace PopupManager

/-- create of the source: build a fresh detached element carrying the
popup class and store it, discarding any previously held element. -/
def create (_popup : Option PopupElem) : Option PopupElem :=
  some { classes := [PopupConfig.POPUP_CLASS], styleTop := none,
         styleLeft := none, attached := false }

/-- show of the source: no-op when no element is held; otherwise attach
the element to the document body and add the show class on the next
animation frame. -/
def show' (popup : Option PopupElem) : Option PopupElem :=
  match popup with
  | none => none
  | some p =>
    some { p with
      attached := true,
      classes := p.classes ++ [PopupConfig.SHOW_CLASS] }

/-- hide of the source: when an element is held, remove it from the
document and clear the stored reference; otherwise do nothing. -/
def hide (popup : Option PopupElem) : Option PopupElem :=
  match popup with
  | none => none
  | some _ => none

/-- position of the source: no-op when no element is held; otherwise
remove both placement classes, add the class for the requested
placement, and set the top and left styles. -/
def position (popup : Option PopupElem) (pos : PopupPosition) :
    Option PopupElem :=
  match popup with
  | none => none
  | some p =>
    let cleared := p.classes.filter fun c =>
      decide (c ≠ PopupConfig.PLACEMENT_TOP_CLASS) &&
      decide (c ≠ PopupConfig.PLACEMENT_BOTTOM_CLASS)
    some { p with
      classes := cleared ++ [placementClass pos.placement],
      styleTop := some pos.top,
      styleLeft := some pos.left }

/-- getElement of the source: the stored element or null. -/
def getElement (popup : Option PopupElem) : Option PopupElem := popup

/-- exists of the source (named existsElem since exists is reserved):
whether an element is currently held. -/
def existsElem (popup : Option PopupElem) : Bool := popup.isSome

end PopupManager

-- ========== Plugin controller (event handlers) ==========

/-- Abstract state of TextSelectionLinkerPlugin between events: whether
the popup element currently exists, whether the live selection is
currently valid (non-empty after trimming), and the isProcessing
re-entrancy guard. -/
structure CtrlState where
  popup : Bool
  valid : Bool
  processing : Bool
deriving DecidableEq

/-- The discrete events the plugin reacts to. selChange carries the
validity of the selection after the change, since in the browser the
selection only changes together with a selectionchange event.
checkSel is the delayed checkSelection run scheduled by mouseup or by a
shift plus arrow keyup, carrying whether an active markdown editor
exists. framePos is the animation-frame callback of showPopup.
scrollResize carries whether a selection rectangle is still available.
escapeKey, leafChange and convertClick hide the popup. -/
inductive CtrlEvent where
  | selChange (valid : Bool)
  | escapeKey
  | checkSel (hasEditor : Bool)
  | framePos
  | scrollResize (rectAvailable : Bool)
  | leafChange
  | convertClick
deriving DecidableEq

/-- One event-handler step of the plugin, translated from the handlers
of TextSelectionLinkerPlugin:
handleSelectionChange hides when the popup exists and the selection is
invalid; the Escape branch of handleKeyUp hides; checkSelection returns
under the isProcessing guard, hides when no editor is active or the
selection is invalid, and otherwise runs showPopup (popup created and
shown, isProcessing set until the frame callback); the frame callback
positions the popup and clears isProcessing; handleScrollOrResize
repositions, hiding when the selection rectangle is gone; the
active-leaf-change handler hides; the popup click handler converts and
hides. -/
def ctrlStep (s : CtrlState) (e : CtrlEvent) : CtrlState :=
  match e with
  | CtrlEvent.selChange v =>
    if s.popup && !v then { s with valid := v, popup := false }
    else { s with valid := v }
  | CtrlEvent.escapeKey => { s with popup := false }
  | CtrlEvent.checkSel hasEditor =>
    if s.processing then s
    else if !hasEditor then { s with popup := false }
    else if s.valid then { s with popup := true, processing := true }
    else { s with popup := false }
  | CtrlEvent.framePos => { s with processing := false }
  | CtrlEvent.scrollResize rectAvailable =>
    if s.popup && !rectAvailable then { s with popup := false } else s
  | CtrlEvent.leafChange => { s with popup := false }
  | CtrlEvent.convertClick => { s with popup := false }

/-- Initial state at plugin load: no popup, no selection, not
processing. -/
def ctrlInit : CtrlState :=
  { popup := false, valid := false, processing := false }

/-- States reachable from the initial state through event-handler
steps. -/
inductive Reachable : CtrlState → Prop where
  | init : Reachable ctrlInit
  | step (s : CtrlState) (e : CtrlEvent) : Reachable s → Reachable (ctrlStep s e)

-- ========== Helper lemmas: the bracket transform ==========

theorem removeDoubles_of_not_mem (ch : Char) :
    ∀ l : List Char, ch ∉ l → removeDoubles ch l = l := by
  intro l hl
  induction l using removeDoubles.induct ch with
  | case1 => rfl
  | case2 a => rfl
  | case3 a b rest h ih => simp_all
  | case4 a b rest h ih =>
    simp only [removeDoubles, if_neg h]
    rw [ih (by simp_all)]

theorem removeDoubles_append_pair (ch : Char) :
    ∀ l : List Char, ch ∉ l → removeDoubles ch (l ++ [ch, ch]) = l := by
  intro l
  induction l with
  | nil =>
    intro _
    simp [removeDoubles]
  | cons a l ih =>
    intro hl
    have ha : a ≠ ch := by
      intro h
      exact hl (by simp [h])
    cases l with
    | nil => simp [removeDoubles, ha]
    | cons b l2 =>
      have hb : ch ∉ b :: l2 := fun h => hl (List.mem_cons_of_mem a h)
      have ih2 := ih hb
      simp only [List.cons_append, List.append_eq] at ih2 ⊢
      simp only [removeDoubles, List.append_eq]
      rw [if_neg (by tauto), ih2]

theorem filter_removeDoubles (p : Char → Bool) (ch : Char) (hp : p ch = false) :
    ∀ l : List Char, (removeDoubles ch l).filter p = l.filter p := by
  intro l
  induction l using removeDoubles.induct ch with
  | case1 => rfl
  | case2 a => rfl
  | case3 a b rest h ih =>
    simp only [removeDoubles, if_pos h]
    rw [ih]
    simp [List.filter_cons, h.1, h.2, hp]
  | case4 a b rest h ih =>
    simp only [removeDoubles, if_neg h]
    simp only [List.filter_cons, ih]

theorem strip_chain_eq_filter (s : List Char) :
    removeAll ']' (removeAll '[' (removeDoubles ']' (removeDoubles '[' s))) =
      s.filter nonBracket := by
  have hfun : ∀ l : List Char,
      removeAll ']' (removeAll '[' l) = l.filter nonBracket := by
    intro l
    unfold removeAll
    rw [List.filter_filter]
    congr 1
    funext c
    simp [nonBracket, Bool.and_comm]
  rw [hfun, filter_removeDoubles nonBracket ']' (by decide),
    filter_removeDoubles nonBracket '[' (by decide)]

theorem convertToLinkText_eq (s : List Char) :
    convertToLinkText s = '[' :: '[' :: (s.filter nonBracket ++ [']', ']']) := by
  simp only [convertToLinkText]
  rw [strip_chain_eq_filter]

-- ========== Claim theorems: text transform ==========

/-- C3: the bracket-rewrite transformation of convertToLink is
idempotent: applied to a string that is already its output it yields the
same string; in particular a double-bracketed x stays unchanged, a
single-bracketed x becomes double-bracketed, and a bracket in the middle
of the text is removed with the wrap applied at the ends. -/
theorem C3_theorem :
    (∀ s : List Char,
      convertToLinkText (convertToLinkText s) = convertToLinkText s) ∧
    convertToLinkText "[[x]]".toList = "[[x]]".toList ∧
    convertToLinkText "[x]".toList = "[[x]]".toList ∧
    convertToLinkText "te[x]t".toList = "[[text]]".toList := by
  refine ⟨fun s => ?_, by decide, by decide, by decide⟩
  rw [convertToLinkText_eq, convertToLinkText_eq]
  simp [List.filter_append, List.filter_filter, nonBracket, decide_not]
  congr 1
  funext a
  simp [nonBracket, decide_not]

/-- C4: for every input the output of the convertToLink transformation
contains exactly two opening and two closing bracket characters, located
only at the very start and the very end; in particular the input
a[b]]c[[d is transformed to [[abcd]]. -/
theorem C4_theorem :
    (∀ s : List Char, ∃ x : List Char,
      '[' ∉ x ∧ ']' ∉ x ∧
      (convertToLinkText s).count '[' = 2 ∧
      (convertToLinkText s).count ']' = 2 ∧
      convertToLinkText s = '[' :: '[' :: (x ++ [']', ']'])) ∧
    convertToLinkText "a[b]]c[[d".toList = "[[abcd]]".toList := by
  refine ⟨fun s => ⟨s.filter nonBracket, ?_, ?_, ?_, ?_, convertToLinkText_eq s⟩,
    by decide⟩
  · intro h
    have := List.of_mem_filter h
    simp [nonBracket] at this
  · intro h
    have := List.of_mem_filter h
    simp [nonBracket] at this
  · rw [convertToLinkText_eq]
    have hx : '[' ∉ s.filter nonBracket := by
      intro h
      have := List.of_mem_filter h
      simp [nonBracket] at this
    simp [List.count_cons, List.count_append, List.count_eq_zero_of_not_mem hx]
  · rw [convertToLinkText_eq]
    have hx : ']' ∉ s.filter nonBracket := by
      intro h
      have := List.of_mem_filter h
      simp [nonBracket] at this
    simp [List.count_cons, List.count_append, List.count_eq_zero_of_not_mem hx]

/-- C9: for every bound editor with a non-empty selected text,
convertToLink replaces the selection with the selected text stripped of
every bracket character, wrapped in one double-bracket pair: the
non-bracket characters are kept exactly, in order, with none added or
dropped. -/
theorem C9_theorem (e : EditorState) (h : e.selection ≠ []) :
    convertToLink (some e) =
      some { before :=
               e.before ++
                 ('[' :: '[' :: (e.selection.filter nonBracket ++ [']', ']'])),
             selection := ([] : List Char),
             after := e.after } := by
  simp only [convertToLink, EditorState.getSelection,
    EditorState.replaceSelection, if_neg h]
  rw [convertToLinkText_eq]

/-- Witness for C9 at a concrete editor state. -/
theorem C9_witness :
    convertToLink (some ⟨[], ['x'], []⟩) =
      some ⟨['[', '[', 'x', ']', ']'], [], []⟩ := by
  rw [C9_theorem ⟨[], ['x'], []⟩ (by decide)]
  decide

-- ========== Claim theorems: PopupManager ==========

/-- C8: every PopupManager operation invoked while no popup element is
held is a guarded no-op rather than an error: hide leaves the empty
state unchanged, show and position do nothing, getElement reports
absence, and after hide on any state the element no longer exists. -/
theorem C8_theorem :
    PopupManager.hide (none : Option PopupElem) = none ∧
    PopupManager.show' (none : Option PopupElem) = none ∧
    (∀ pos : PopupPosition, PopupManager.position none pos = none) ∧
    PopupManager.getElement (none : Option PopupElem) = none ∧
    (∀ popup : Option PopupElem,
      PopupManager.existsElem (PopupManager.hide popup) = false) := by
  refine ⟨rfl, rfl, fun _ => rfl, rfl, fun popup => ?_⟩
  cases popup <;> rfl

-- ========== Helper lemmas: the position calculator ==========

theorem hasCollision_eq_false (sel : Rect) (pos : PopupPosition) (popup : Rect)
    (h : pos.top + popup.height < sel.top ∨ sel.bottom < pos.top) :
    PositionCalculator.hasCollision sel pos popup = false := by
  simp only [PositionCalculator.hasCollision]
  rcases h with h | h
  · simp [h]
  · simp [h]

theorem calcVert_no_overlap (sel popup : Rect) (vh : ℚ)
    (h : PopupConfig.SCREEN_MARGIN ≤
           sel.top - popup.height - PopupConfig.TOTAL_OFFSET ∨
         sel.bottom + PopupConfig.TOTAL_OFFSET + popup.height ≤
           vh - PopupConfig.SCREEN_MARGIN) :
    (PositionCalculator.calculateVerticalPosition sel popup vh).1 +
        popup.height < sel.top ∨
      sel.bottom <
        (PositionCalculator.calculateVerticalPosition sel popup vh).1 := by
  simp only [PopupConfig.TOTAL_OFFSET, PopupConfig.TAIL_SIZE,
    PopupConfig.POPUP_MARGIN, PopupConfig.SCREEN_MARGIN, Rect.bottom] at h ⊢
  simp only [PositionCalculator.calculateVerticalPosition,
    PopupConfig.TOTAL_OFFSET, PopupConfig.TAIL_SIZE, PopupConfig.POPUP_MARGIN,
    PopupConfig.SCREEN_MARGIN, Rect.bottom, ge_iff_le]
  split_ifs with hA hB hC
  · left
    dsimp only
    linarith
  · right
    dsimp only
    linarith
  · exfalso
    push_neg at hA hB
    rcases h with h | h <;> linarith
  · exfalso
    push_neg at hA hB
    rcases h with h | h <;> linarith

theorem calcVert_bounds (sel popup : Rect) (vh : ℚ)
    (hh : popup.height ≤ vh - 2 * PopupConfig.SCREEN_MARGIN)
    (h1 : 0 ≤ sel.top) (h2 : 0 ≤ sel.height) (h3 : sel.bottom ≤ vh) :
    PopupConfig.SCREEN_MARGIN ≤
        (PositionCalculator.calculateVerticalPosition sel popup vh).1 ∧
      (PositionCalculator.calculateVerticalPosition sel popup vh).1 +
          popup.height ≤ vh - PopupConfig.SCREEN_MARGIN := by
  simp only [PopupConfig.SCREEN_MARGIN, Rect.bottom] at hh h3
  simp only [PositionCalculator.calculateVerticalPosition,
    PopupConfig.TOTAL_OFFSET, PopupConfig.TAIL_SIZE, PopupConfig.POPUP_MARGIN,
    PopupConfig.SCREEN_MARGIN, Rect.bottom, ge_iff_le]
  split_ifs with hA hB hC
  · constructor <;> dsimp only <;> linarith
  · push_neg at hA
    constructor <;> dsimp only <;> linarith
  · push_neg at hA hB
    constructor
    · dsimp only
      exact le_max_left _ _
    · dsimp only
      rw [max_eq_left (by linarith)]
      linarith
  · push_neg at hA hB hC
    constructor
    · dsimp only
      exact le_min (by linarith) (by linarith)
    · dsimp only
      have hm := min_le_left (vh - popup.height - 10)
        (sel.top + sel.height + (6 + 10))
      linarith

theorem force_bounds (sel popup : Rect) (vp : Viewport)
    (hh : popup.height ≤ vp.height - 2 * PopupConfig.SCREEN_MARGIN)
    (h1 : 0 ≤ sel.top) (h2 : 0 ≤ sel.height) (h3 : sel.bottom ≤ vp.height) :
    PopupConfig.SCREEN_MARGIN ≤
        (PositionCalculator.forceSafePosition sel popup vp).top ∧
      (PositionCalculator.forceSafePosition sel popup vp).top +
          popup.height ≤ vp.height - PopupConfig.SCREEN_MARGIN := by
  simp only [PopupConfig.SCREEN_MARGIN, Rect.bottom] at hh h3
  simp only [PositionCalculator.forceSafePosition,
    PopupConfig.TOTAL_OFFSET, PopupConfig.TAIL_SIZE, PopupConfig.POPUP_MARGIN,
    PopupConfig.SCREEN_MARGIN, Rect.bottom]
  split_ifs with hA hB
  · constructor
    · dsimp only
      exact le_max_left _ _
    · dsimp only
      rw [max_eq_right (by linarith)]
      linarith
  · push_neg at hB
    constructor <;> dsimp only <;> linarith
  · push_neg at hA
    constructor <;> dsimp only <;> linarith

theorem clamp_mem (l w vw : ℚ)
    (hw : w ≤ vw - 2 * PopupConfig.SCREEN_MARGIN) :
    PopupConfig.SCREEN_MARGIN ≤
        PositionCalculator.clampToHorizontalBounds l w vw ∧
      PositionCalculator.clampToHorizontalBounds l w vw + w ≤
        vw - PopupConfig.SCREEN_MARGIN := by
  simp only [PopupConfig.SCREEN_MARGIN] at hw
  simp only [PositionCalculator.clampToHorizontalBounds,
    PopupConfig.SCREEN_MARGIN]
  constructor
  · exact le_max_left _ _
  · have h10 : (10 : ℚ) ≤ vw - w - 10 := by linarith
    have hmax := max_le h10 (min_le_right l (vw - w - 10))
    linarith

theorem calculate_left_eq (sel popup : Rect) (vp : Viewport) :
    (PositionCalculator.calculate sel popup vp).left =
      PositionCalculator.calculateHorizontalPosition sel popup vp.width := by
  simp only [PositionCalculator.calculate]
  split <;> rfl

-- ========== Claim theorems: position calculator ==========

/-- C1 counterexample: with a popup far taller than both the space above
and the space below the selection, calculate falls into the final
clamping branch of forceSafePosition and the returned placement box
does overlap the selection box on both axes. -/
theorem C1_counterexample :
    PositionCalculator.hasCollision ⟨100, 0, 100, 100⟩
      (PositionCalculator.calculate ⟨100, 0, 100, 100⟩ ⟨0, 0, 50, 300⟩
        ⟨200, 400⟩)
      ⟨0, 0, 50, 300⟩ = true := by
  norm_num [PositionCalculator.calculate,
    PositionCalculator.calculateVerticalPosition,
    PositionCalculator.calculateHorizontalPosition,
    PositionCalculator.clampToHorizontalBounds,
    PositionCalculator.hasCollision,
    PositionCalculator.forceSafePosition,
    Rect.bottom, Rect.right,
    PopupConfig.TOTAL_OFFSET, PopupConfig.TAIL_SIZE,
    PopupConfig.POPUP_MARGIN, PopupConfig.SCREEN_MARGIN,
    max_def, min_def]

/-- C1 (amended): whenever the popup fits cleanly above the selection
(top placement at least SCREEN_MARGIN) or cleanly below it (bottom edge
at most viewportHeight minus SCREEN_MARGIN), the placement returned by
PositionCalculator.calculate describes a popup box that does not overlap
the selection box on both axes simultaneously. -/
theorem C1_theorem (sel popup : Rect) (vp : Viewport)
    (h : PopupConfig.SCREEN_MARGIN ≤
           sel.top - popup.height - PopupConfig.TOTAL_OFFSET ∨
         sel.bottom + PopupConfig.TOTAL_OFFSET + popup.height ≤
           vp.height - PopupConfig.SCREEN_MARGIN) :
    PositionCalculator.hasCollision sel
      (PositionCalculator.calculate sel popup vp) popup = false := by
  have key : PositionCalculator.hasCollision sel
      ⟨(PositionCalculator.calculateVerticalPosition sel popup vp.height).1,
       PositionCalculator.calculateHorizontalPosition sel popup vp.width,
       (PositionCalculator.calculateVerticalPosition sel popup vp.height).2⟩
      popup = false :=
    hasCollision_eq_false _ _ _ (calcVert_no_overlap sel popup vp.height h)
  have hc : PositionCalculator.calculate sel popup vp =
      ⟨(PositionCalculator.calculateVerticalPosition sel popup vp.height).1,
       PositionCalculator.calculateHorizontalPosition sel popup vp.width,
       (PositionCalculator.calculateVerticalPosition sel popup vp.height).2⟩ := by
    simp only [PositionCalculator.calculate]
    rw [key]
    simp
  rw [hc]
  exact key

/-- Witness for C1 at a concrete input with room above. -/
theorem C1_witness :
    PositionCalculator.hasCollision ⟨500, 100, 80, 20⟩
      (PositionCalculator.calculate ⟨500, 100, 80, 20⟩ ⟨0, 0, 120, 40⟩
        ⟨1000, 800⟩)
      ⟨0, 0, 120, 40⟩ = false :=
  C1_theorem ⟨500, 100, 80, 20⟩ ⟨0, 0, 120, 40⟩ ⟨1000, 800⟩
    (Or.inl (by norm_num [PopupConfig.TOTAL_OFFSET, PopupConfig.TAIL_SIZE,
      PopupConfig.POPUP_MARGIN, PopupConfig.SCREEN_MARGIN]))

/-- C2 counterexample: a selection rectangle lying below the viewport
satisfies the popup-fits-in-viewport side conditions of the claim, yet
the returned placement (above the selection, outside the viewport)
violates vertical containment. -/
theorem C2_counterexample :
    (40 : ℚ) ≤ 800 - 2 * PopupConfig.SCREEN_MARGIN ∧
    (120 : ℚ) ≤ 1000 - 2 * PopupConfig.SCREEN_MARGIN ∧
    ¬((PositionCalculator.calculate ⟨2000, 100, 80, 20⟩ ⟨0, 0, 120, 40⟩
        ⟨1000, 800⟩).top + 40 ≤ 800 - PopupConfig.SCREEN_MARGIN) := by
  refine ⟨by norm_num [PopupConfig.SCREEN_MARGIN],
    by norm_num [PopupConfig.SCREEN_MARGIN], ?_⟩
  have hc : PositionCalculator.calculate ⟨2000, 100, 80, 20⟩ ⟨0, 0, 120, 40⟩
      ⟨1000, 800⟩ = ⟨1944, 80, PopupPlacement.top⟩ := by
    norm_num [PositionCalculator.calculate,
      PositionCalculator.calculateVerticalPosition,
      PositionCalculator.calculateHorizontalPosition,
      PositionCalculator.clampToHorizontalBounds,
      PositionCalculator.hasCollision,
      PositionCalculator.forceSafePosition,
      Rect.bottom, Rect.right,
      PopupConfig.TOTAL_OFFSET, PopupConfig.TAIL_SIZE,
      PopupConfig.POPUP_MARGIN, PopupConfig.SCREEN_MARGIN,
      max_def, min_def]
  rw [hc]
  norm_num [PopupConfig.SCREEN_MARGIN]

/-- C2 (amended): when popupHeight and popupWidth fit inside the
viewport minus twice SCREEN_MARGIN and additionally the selection
rectangle lies vertically within the viewport (nonnegative top,
nonnegative height, bottom at most viewportHeight), the placement
returned by PositionCalculator.calculate keeps the popup box fully
within SCREEN_MARGIN of the viewport on both axes. -/
theorem C2_theorem (sel popup : Rect) (vp : Viewport)
    (hh : popup.height ≤ vp.height - 2 * PopupConfig.SCREEN_MARGIN)
    (hw : popup.width ≤ vp.width - 2 * PopupConfig.SCREEN_MARGIN)
    (h1 : 0 ≤ sel.top) (h2 : 0 ≤ sel.height) (h3 : sel.bottom ≤ vp.height) :
    PopupConfig.SCREEN_MARGIN ≤ (PositionCalculator.calculate sel popup vp).top ∧
    (PositionCalculator.calculate sel popup vp).top + popup.height ≤
      vp.height - PopupConfig.SCREEN_MARGIN ∧
    PopupConfig.SCREEN_MARGIN ≤ (PositionCalculator.calculate sel popup vp).left ∧
    (PositionCalculator.calculate sel popup vp).left + popup.width ≤
      vp.width - PopupConfig.SCREEN_MARGIN := by
  have hl := clamp_mem (sel.left + sel.width / 2 - popup.width / 2)
    popup.width vp.width hw
  have hv := calcVert_bounds sel popup vp.height hh h1 h2 h3
  have hf := force_bounds sel popup vp hh h1 h2 h3
  simp only [PositionCalculator.calculate]
  split
  · exact ⟨hf.1, hf.2, hl.1, hl.2⟩
  · exact ⟨hv.1, hv.2, hl.1, hl.2⟩

/-- Witness for C2 at the concrete scenario of the spec. -/
theorem C2_witness :
    PopupConfig.SCREEN_MARGIN ≤
        (PositionCalculator.calculate ⟨500, 100, 80, 20⟩ ⟨0, 0, 120, 40⟩
          ⟨1000, 800⟩).top ∧
      (PositionCalculator.calculate ⟨500, 100, 80, 20⟩ ⟨0, 0, 120, 40⟩
          ⟨1000, 800⟩).top + 40 ≤ 800 - PopupConfig.SCREEN_MARGIN ∧
      PopupConfig.SCREEN_MARGIN ≤
        (PositionCalculator.calculate ⟨500, 100, 80, 20⟩ ⟨0, 0, 120, 40⟩
          ⟨1000, 800⟩).left ∧
      (PositionCalculator.calculate ⟨500, 100, 80, 20⟩ ⟨0, 0, 120, 40⟩
          ⟨1000, 800⟩).left + 120 ≤ 1000 - PopupConfig.SCREEN_MARGIN :=
  C2_theorem ⟨500, 100, 80, 20⟩ ⟨0, 0, 120, 40⟩ ⟨1000, 800⟩
    (by norm_num [PopupConfig.SCREEN_MARGIN])
    (by norm_num [PopupConfig.SCREEN_MARGIN])
    (by norm_num) (by norm_num) (by norm_num [Rect.bottom])

/-- C6: in the vertical fallback branch (above placement below
SCREEN_MARGIN and below placement overflowing the bottom margin), when
the space above equals the space below, calculateVerticalPosition
chooses side top with coordinate max of SCREEN_MARGIN and the above
placement. -/
theorem C6_theorem (sel popup : Rect) (vh : ℚ)
    (hA : sel.top - popup.height - PopupConfig.TOTAL_OFFSET <
      PopupConfig.SCREEN_MARGIN)
    (hB : vh - PopupConfig.SCREEN_MARGIN <
      sel.bottom + PopupConfig.TOTAL_OFFSET + popup.height)
    (hTie : sel.top - PopupConfig.SCREEN_MARGIN =
      vh - sel.bottom - PopupConfig.SCREEN_MARGIN) :
    PositionCalculator.calculateVerticalPosition sel popup vh =
      (max PopupConfig.SCREEN_MARGIN
        (sel.top - popup.height - PopupConfig.TOTAL_OFFSET),
       PopupPlacement.top) := by
  simp only [PositionCalculator.calculateVerticalPosition, ge_iff_le]
  rw [if_neg (by push_neg; linarith), if_neg (by push_neg; linarith),
    if_pos (by linarith [hTie.ge])]

/-- Witness for C6 at a concrete tie input. -/
theorem C6_witness :
    PositionCalculator.calculateVerticalPosition ⟨300, 0, 10, 200⟩
      ⟨0, 0, 10, 300⟩ 800 = (10, PopupPlacement.top) := by
  rw [C6_theorem ⟨300, 0, 10, 200⟩ ⟨0, 0, 10, 300⟩ 800
    (by norm_num [PopupConfig.TOTAL_OFFSET, PopupConfig.TAIL_SIZE,
      PopupConfig.POPUP_MARGIN, PopupConfig.SCREEN_MARGIN])
    (by norm_num [PopupConfig.TOTAL_OFFSET, PopupConfig.TAIL_SIZE,
      PopupConfig.POPUP_MARGIN, PopupConfig.SCREEN_MARGIN, Rect.bottom])
    (by norm_num [PopupConfig.SCREEN_MARGIN, Rect.bottom])]
  norm_num [PopupConfig.TOTAL_OFFSET, PopupConfig.TAIL_SIZE,
    PopupConfig.POPUP_MARGIN, PopupConfig.SCREEN_MARGIN, max_def]

/-- C7: on the concrete scenario of the spec the above placement is
rejected (15 - 40 - 16 is below SCREEN_MARGIN) and calculate returns the
below placement with top 51 (and left 80). -/
theorem C7_theorem :
    (15 : ℚ) - 40 - PopupConfig.TOTAL_OFFSET < PopupConfig.SCREEN_MARGIN ∧
    PositionCalculator.calculate ⟨15, 100, 80, 20⟩ ⟨0, 0, 120, 40⟩
      ⟨1000, 800⟩ = ⟨51, 80, PopupPlacement.bottom⟩ := by
  constructor
  · norm_num [PopupConfig.TOTAL_OFFSET, PopupConfig.TAIL_SIZE,
      PopupConfig.POPUP_MARGIN, PopupConfig.SCREEN_MARGIN]
  · norm_num [PositionCalculator.calculate,
      PositionCalculator.calculateVerticalPosition,
      PositionCalculator.calculateHorizontalPosition,
      PositionCalculator.clampToHorizontalBounds,
      PositionCalculator.hasCollision,
      Rect.bottom, Rect.right,
      PopupConfig.TOTAL_OFFSET, PopupConfig.TAIL_SIZE,
      PopupConfig.POPUP_MARGIN, PopupConfig.SCREEN_MARGIN,
      max_def, min_def]

/-- C10: the left coordinate returned by calculate is always at least
SCREEN_MARGIN, and when the popup is wider than the viewport minus twice
SCREEN_MARGIN the returned left is exactly SCREEN_MARGIN, so the popup
can only overflow the right viewport edge, never the left. -/
theorem C10_theorem (sel popup : Rect) (vp : Viewport) :
    PopupConfig.SCREEN_MARGIN ≤ (PositionCalculator.calculate sel popup vp).left ∧
    (vp.width - 2 * PopupConfig.SCREEN_MARGIN < popup.width →
      (PositionCalculator.calculate sel popup vp).left =
        PopupConfig.SCREEN_MARGIN) := by
  rw [calculate_left_eq]
  simp only [PositionCalculator.calculateHorizontalPosition,
    PositionCalculator.clampToHorizontalBounds]
  constructor
  · exact le_max_left _ _
  · intro hw
    simp only [PopupConfig.SCREEN_MARGIN] at hw ⊢
    have hm : min (sel.left + sel.width / 2 - popup.width / 2)
        (vp.width - popup.width - 10) ≤ vp.width - popup.width - 10 :=
      min_le_right _ _
    rw [max_eq_left (by linarith)]

/-- Witness for C10 with a popup wider than the viewport. -/
theorem C10_witness :
    (PositionCalculator.calculate ⟨100, 100, 50, 20⟩ ⟨0, 0, 1000, 40⟩
      ⟨500, 800⟩).left = PopupConfig.SCREEN_MARGIN :=
  (C10_theorem ⟨100, 100, 50, 20⟩ ⟨0, 0, 1000, 40⟩ ⟨500, 800⟩).2
    (by norm_num [PopupConfig.SCREEN_MARGIN])

-- ========== Claim theorems: controller invariant ==========

/-- C5: in every reachable state of the event-step relation of the
controller, the popup element never exists while the underlying
selection is invalid: every event handler that detects an invalid
selection hides the popup. -/
theorem C5_theorem (s : CtrlState) (hs : Reachable s)
    (hp : s.popup = true) : s.valid = true := by
  induction hs with
  | init => simp [ctrlInit] at hp
  | step s e hr ih =>
    cases e with
    | selChange v =>
      simp only [ctrlStep] at hp ⊢
      split_ifs at hp ⊢ with h
      all_goals simp_all
    | escapeKey => simp [ctrlStep] at hp
    | checkSel hasEditor =>
      simp only [ctrlStep] at hp ⊢
      split_ifs at hp ⊢ with h h2 h3 <;> simp_all
    | framePos =>
      simp only [ctrlStep] at hp ⊢
      exact ih hp
    | scrollResize rectAvailable =>
      simp only [ctrlStep] at hp ⊢
      split_ifs at hp ⊢ with h
      all_goals simp_all
    | leafChange => simp [ctrlStep] at hp
    | convertClick => simp [ctrlStep] at hp

/-- Witness for C5 at the reachable state reached by a selection change
to a valid selection followed by the delayed selection check. -/
theorem C5_witness :
    (ctrlStep (ctrlStep ctrlInit (CtrlEvent.selChange true))
      (CtrlEvent.checkSel true)).valid = true :=
  C5_theorem _
    (Reachable.step _ _ (Reachable.step _ _ Reachable.init))
    (by simp [ctrlStep, ctrlInit])
